import Mathlib

set_option linter.unusedVariables false

/-- One observable effect performed by a driver routine: bus traffic under a
chip-select hold, guard busy-waits, millisecond sleeps, ADC conversions,
emitted input events and work-queue (re)scheduling. -/
inductive Act where
  | spiWrite (bytes : List Nat)
  | spiRead (len : Nat)
  | releaseHold
  | busyWait (us : Nat)
  | msleep (ms : Nat)
  | adcReadX
  | adcReadY
  | reportX (value : Int) (sync : Bool)
  | reportY (value : Int) (sync : Bool)
  | schedule (ms : Nat)
  deriving DecidableEq

/-- The SPI transport collaborator, as seen by the pmw3360 driver: the
outcome of writing a frame of bytes (0 means success, a nonzero code is the
transport error), and, for the one-byte read that follows an address write,
the outcome of reading back (error code, data byte) as a function of the
address last written. -/
structure Spi where
  writeErr : List Nat → Int
  readData : Nat → Int × Nat

def PMW3360_PRODUCT_ID : Nat := 0x00

def PMW3360_REVISION_ID : Nat := 0x01

def PMW3360_MOTION : Nat := 0x02

def PMW3360_DELTA_X_L : Nat := 0x03

def PMW3360_DELTA_X_H : Nat := 0x04

def PMW3360_DELTA_Y_L : Nat := 0x05

def PMW3360_DELTA_Y_H : Nat := 0x06

def PMW3360_CONFIG1 : Nat := 0x0F

def PMW3360_CONFIG2 : Nat := 0x10

def PMW3360_POWER_UP_RESET : Nat := 0x3A

/-- Reinterpretation of a 16-bit pattern as a signed C int16_t, as performed
by the cast in pmw3360_read_motion. -/
def toInt16 (n : Nat) : Int :=
  let m := n % 65536
  if m < 32768 then (m : Int) else (m : Int) - 65536

/-- pmw3360_reg_read from pmw3360.c: writes the one-byte address frame with
the top bit cleared while holding the bus; on write failure it releases the
hold and returns the error at once; on write success it busy-waits 160, reads
one byte, releases the hold, busy-waits 19, and assigns the out parameter
only when the read succeeded.  Returns (error code, out-parameter value
after the call, action trace); val is the value of the out parameter before
the call. -/
def pmw3360_reg_read (spi : Spi) (reg : Nat) (val : Nat) : Int × Nat × List Act :=
  let addr := reg &&& 0x7F
  let werr := spi.writeErr [addr]
  if werr ≠ 0 then
    (werr, val, [Act.spiWrite [addr], Act.releaseHold])
  else
    let r := spi.readData addr
    let tr := [Act.spiWrite [addr], Act.busyWait 160, Act.spiRead 1,
               Act.releaseHold, Act.busyWait 19]
    if r.1 = 0 then (0, r.2 % 256, tr) else (r.1, val, tr)

/-- The action trace of a pmw3360_reg_read whose address write succeeded. -/
def regReadTrace (addr : Nat) : List Act :=
  [Act.spiWrite [addr], Act.busyWait 160, Act.spiRead 1,
   Act.releaseHold, Act.busyWait 19]

/-- pmw3360_reg_write from pmw3360.c: writes the two-byte frame (address with
top bit set, then value) under hold, busy-waits 35, releases the hold,
busy-waits 145, and returns the write error code. -/
def pmw3360_reg_write (spi : Spi) (reg : Nat) (v : Nat) : Int × List Act :=
  let tx := [(reg % 256) ||| 0x80, v % 256]
  (spi.writeErr tx,
   [Act.spiWrite tx, Act.busyWait 35, Act.releaseHold, Act.busyWait 145])

/-- pmw3360_set_cpi from pmw3360.c: clamps the configured cpi (a uint16) to
[100, 12000], encodes it as (cpi / 100) - 1 and writes it to CONFIG1. -/
def pmw3360_set_cpi (spi : Spi) (cpi0 : Nat) : Int × List Act :=
  let cpi := if cpi0 < 100 then 100 else if cpi0 > 12000 then 12000 else cpi0
  let reg_val := (cpi / 100 - 1) % 256
  pmw3360_reg_write spi PMW3360_CONFIG1 reg_val

/-- pmw3360_read_motion from pmw3360.c: reads the MOTION register; on read
failure or a clear 0x80 bit returns no motion without further reads; else
reads DELTA_X_L, DELTA_X_H, DELTA_Y_L, DELTA_Y_H in that order with
short-circuiting on the first failure, and on success assembles each axis
delta as an int16 with the high byte most significant. -/
def pmw3360_read_motion (spi : Spi) : Option (Int × Int) × List Act :=
  let r0 := pmw3360_reg_read spi PMW3360_MOTION 0
  if r0.1 ≠ 0 then (none, r0.2.2)
  else if r0.2.1 &&& 0x80 = 0 then (none, r0.2.2)
  else
    let r1 := pmw3360_reg_read spi PMW3360_DELTA_X_L 0
    if r1.1 ≠ 0 then (none, r0.2.2 ++ r1.2.2)
    else
      let r2 := pmw3360_reg_read spi PMW3360_DELTA_X_H 0
      if r2.1 ≠ 0 then (none, r0.2.2 ++ r1.2.2 ++ r2.2.2)
      else
        let r3 := pmw3360_reg_read spi PMW3360_DELTA_Y_L 0
        if r3.1 ≠ 0 then (none, r0.2.2 ++ r1.2.2 ++ r2.2.2 ++ r3.2.2)
        else
          let r4 := pmw3360_reg_read spi PMW3360_DELTA_Y_H 0
          if r4.1 ≠ 0 then (none, r0.2.2 ++ r1.2.2 ++ r2.2.2 ++ r3.2.2 ++ r4.2.2)
          else
            (some (toInt16 ((r2.2.1 <<< 8) ||| r1.2.1),
                   toInt16 ((r4.2.1 <<< 8) ||| r3.2.1)),
             r0.2.2 ++ r1.2.2 ++ r2.2.2 ++ r3.2.2 ++ r4.2.2)

/-- pmw3360_work_handler from pmw3360.c: samples motion; when sampling
succeeds and at least one delta is nonzero it reports REL_X with sync false
and then REL_Y with sync true; in every case it reschedules itself after the
configured polling interval (no default substitution). -/
def pmw3360_work_handler (spi : Spi) (polling_interval_ms : Nat) : List Act :=
  let m := pmw3360_read_motion spi
  let emits : List Act :=
    match m.1 with
    | some d =>
        if d.1 ≠ 0 ∨ d.2 ≠ 0 then
          [Act.reportX d.1 false, Act.reportY d.2 true]
        else []
    | none => []
  m.2 ++ emits ++ [Act.schedule polling_interval_ms]

/-- pmw3360_init from pmw3360.c: checks bus readiness, writes the power-up
reset value (failure is fatal), sleeps 50 ms, reads product id then revision
id with short-circuiting (failure is fatal), requires the pair (0x42, 0x01)
exactly, then performs best-effort CONFIG2 and cpi writes whose errors are
ignored, and only then schedules the first polling tick.  Error codes are
-19 (ENODEV) and -5 (EIO) as in the source. -/
def pmw3360_init (spi : Spi) (spi_ready : Bool) (polling_interval_ms cpi : Nat) :
    Int × List Act :=
  if spi_ready = false then (-19, [])
  else
    let w := pmw3360_reg_write spi PMW3360_POWER_UP_RESET 0x5A
    if w.1 ≠ 0 then (-5, w.2)
    else
      let r1 := pmw3360_reg_read spi PMW3360_PRODUCT_ID 0
      if r1.1 ≠ 0 then (-5, w.2 ++ [Act.msleep 50] ++ r1.2.2)
      else
        let r2 := pmw3360_reg_read spi PMW3360_REVISION_ID 0
        if r2.1 ≠ 0 then (-5, w.2 ++ [Act.msleep 50] ++ r1.2.2 ++ r2.2.2)
        else if r1.2.1 ≠ 0x42 ∨ r2.2.1 ≠ 0x01 then
          (-19, w.2 ++ [Act.msleep 50] ++ r1.2.2 ++ r2.2.2)
        else
          let w2 := pmw3360_reg_write spi PMW3360_CONFIG2 0x00
          let w3 := pmw3360_set_cpi spi cpi
          (0, w.2 ++ [Act.msleep 50] ++ r1.2.2 ++ r2.2.2 ++ w2.2 ++ w3.2 ++
              [Act.schedule polling_interval_ms])

/-- The per-instance configuration of the analog joystick driver
(struct joystick_config): uint16 poll interval, deadzone and scale divisor,
and the two invert flags. -/
structure JoyCfg where
  poll_interval_ms : Nat
  deadzone : Nat
  scale_divisor : Nat
  invert_x : Bool
  invert_y : Bool

/-- The mutable per-instance state of the joystick driver that outlives a
tick (struct joystick_data): the two calibration centers. -/
structure JoyData where
  center_x : Int
  center_y : Int
  deriving DecidableEq

/-- The ADC collaborator, as seen by the joystick driver: the outcome of the
i-th conversion on each channel, as (error code, int16 sample); the driver
treats a negative code as failure. -/
structure AdcOracle where
  x : Nat → Int × Int
  y : Nat → Int × Int

/-- poll_interval_or_default from the joystick driver: the configured
interval when positive, else 10. -/
def poll_interval_or_default (interval_ms : Nat) : Nat :=
  if interval_ms > 0 then interval_ms else 10

/-- joystick_read_axis collapsed over one conversion outcome r = (err,
sample): a negative error code is returned with the out parameter untouched,
otherwise the sample is stored and 0 returned. -/
def joystick_read_axis (r : Int × Int) (out : Int) : Int × Int :=
  if r.1 < 0 then (r.1, out) else (0, r.2)

/-- apply_deadzone from the joystick driver, on the int32 centered value and
the uint16 threshold. -/
def apply_deadzone (value : Int) (deadzone : Nat) : Int :=
  if value > 0 then
    if value ≤ (deadzone : Int) then 0 else value - deadzone
  else if value < 0 then
    if -value ≤ (deadzone : Int) then 0 else value + deadzone
  else 0

/-- scale_value from the joystick driver: division by the configured divisor
with 1 substituted for 0; C int32 division truncates toward zero, hence
Int.tdiv. -/
def scale_value (value : Int) (divisor : Nat) : Int :=
  let safe : Nat := if divisor = 0 then 1 else divisor
  Int.tdiv value (safe : Int)

/-- CLAMP(v, INT16_MIN, INT16_MAX) as used at the emission sites. -/
def clamp16 (v : Int) : Int := max (-32768) (min 32767 v)

/-- joystick_report from the joystick driver: emits REL_X iff dx is nonzero
and REL_Y iff dy is nonzero, each clamped to int16; the X event carries
sync = (no Y event follows), the Y event always carries sync = true. -/
def joystick_report (dx dy : Int) : List Act :=
  let have_x : Bool := dx != 0
  let have_y : Bool := dy != 0
  (if have_x then [Act.reportX (clamp16 dx) (!have_y)] else []) ++
    (if have_y then [Act.reportY (clamp16 dy) true] else [])

/-- The loop body of joystick_calibrate, recursing on the remaining
iteration count with i the current loop index: reads X then Y for each pair,
aborting with the first negative error code (result none), accumulating both
sums, and after 8 successful pairs dividing each sum by 8 with C (toward
zero) truncation.  Returns (error code, computed centers when successful,
action trace). -/
def calibrate_go (o : AdcOracle) (i : Nat) : Nat → Int → Int →
    Int × Option (Int × Int) × List Act
  | 0, sx, sy => (0, some (Int.tdiv sx 8, Int.tdiv sy 8), [])
  | n + 1, sx, sy =>
    let rx := joystick_read_axis (o.x i) 0
    if rx.1 < 0 then (rx.1, none, [Act.adcReadX])
    else
      let ry := joystick_read_axis (o.y i) 0
      if ry.1 < 0 then (ry.1, none, [Act.adcReadX, Act.adcReadY])
      else
        let rest := calibrate_go o (i + 1) n (sx + rx.2) (sy + ry.2)
        (rest.1, rest.2.1,
         [Act.adcReadX, Act.adcReadY, Act.msleep 2] ++ rest.2.2)

/-- joystick_calibrate from the joystick driver: 8 paired samples, 2 ms
apart; on success the centers are overwritten with the truncated means, on
the first failure the error is returned and the stored centers are left
unchanged. -/
def joystick_calibrate (o : AdcOracle) (data : JoyData) :
    Int × JoyData × List Act :=
  let r := calibrate_go o 0 8 0 0
  match r.2.1 with
  | some c => (0, { center_x := c.1, center_y := c.2 }, r.2.2)
  | none => (r.1, data, r.2.2)

/-- joystick_work_cb from the joystick driver, one tick, with xr and yr the
outcomes of the two ADC conversions of this tick: on either read failure
(Y is not read when X fails) it only reschedules; on success it centers,
deadzones, scales and optionally inverts each axis, reports, and
reschedules after poll_interval_or_default. -/
def joystick_work_cb (cfg : JoyCfg) (data : JoyData) (xr yr : Int × Int) :
    List Act :=
  let rx := joystick_read_axis xr 0
  if rx.1 < 0 then
    [Act.adcReadX, Act.schedule (poll_interval_or_default cfg.poll_interval_ms)]
  else
    let ry := joystick_read_axis yr 0
    if ry.1 < 0 then
      [Act.adcReadX, Act.adcReadY,
       Act.schedule (poll_interval_or_default cfg.poll_interval_ms)]
    else
      let dx0 : Int := rx.2 - data.center_x
      let dy0 : Int := ry.2 - data.center_y
      let dx1 := scale_value (apply_deadzone dx0 cfg.deadzone) cfg.scale_divisor
      let dy1 := scale_value (apply_deadzone dy0 cfg.deadzone) cfg.scale_divisor
      let dx := if cfg.invert_x then -dx1 else dx1
      let dy := if cfg.invert_y then -dy1 else dy1
      [Act.adcReadX, Act.adcReadY] ++ joystick_report dx dy ++
        [Act.schedule (poll_interval_or_default cfg.poll_interval_ms)]

def Act.isSchedule : Act → Bool
  | .schedule _ => true
  | _ => false

def Act.isReportX : Act → Bool
  | .reportX _ _ => true
  | _ => false

def Act.isReportY : Act → Bool
  | .reportY _ _ => true
  | _ => false

/-- The scheduling actions of a trace. -/
def schedules (l : List Act) : List Act := l.filter Act.isSchedule

/-- The REL_X report actions of a trace. -/
def reportsX (l : List Act) : List Act := l.filter Act.isReportX

/-- The REL_Y report actions of a trace. -/
def reportsY (l : List Act) : List Act := l.filter Act.isReportY

def spiC8 : Spi := { writeErr := fun _ => 0, readData := fun _ => (0, 0) }

def spiC10 : Spi := { writeErr := fun _ => -5, readData := fun _ => (0, 7) }

def spiC2fail : Spi := { writeErr := fun _ => -5, readData := fun _ => (0, 0) }

def spiC2ok : Spi := { writeErr := fun _ => 0, readData := fun _ => (0, 42) }

def spiC3 : Spi := { writeErr := fun _ => 0, readData := fun _ => (0, 0) }

def spiC1 : Spi :=
  { writeErr := fun _ => 0,
    readData := fun a =>
      if a = 2 then (0, 0x80) else if a = 5 then (0, 1) else (0, 0) }

def spiC1w : Spi :=
  { writeErr := fun _ => 0,
    readData := fun a =>
      if a = 2 then (0, 0x80) else if a = 3 then (0, 0x10)
      else if a = 5 then (0, 0xF0) else if a = 6 then (0, 0xFF) else (0, 0) }

def spiC4 : Spi :=
  { writeErr := fun _ => 0,
    readData := fun a =>
      if a = 2 then (0, 0x80) else if a = 3 then (0, 0x10)
      else if a = 4 then (0, 0x00) else if a = 5 then (0, 0xF0) else (0, 0xFF) }

def cfgC6 : JoyCfg :=
  { poll_interval_ms := 10, deadzone := 50, scale_divisor := 10,
    invert_x := false, invert_y := false }

def dataC6 : JoyData := { center_x := 500, center_y := 500 }

/-- A transport on which every register write to CONFIG1 (frame head 0x8F,
the resolution register) fails while everything else succeeds, and the
identity reads return (0x42, 0x01). -/
def spiC9 : Spi :=
  { writeErr := fun b => if b.headD 0 = 0x8F then -5 else 0,
    readData := fun a =>
      if a = 0 then (0, 0x42) else if a = 1 then (0, 0x01) else (0, 0) }

/-- The concrete calibration oracle of the spec example: X samples
10, 12, 8, 14, 9, 11, 13, 7 (sum 84) and Y samples all zero. -/
def oC7 : AdcOracle :=
  { x := fun i => (0, [10, 12, 8, 14, 9, 11, 13, 7].getD i 0),
    y := fun _ => (0, 0) }

def dataC7 : JoyData := { center_x := 123, center_y := 456 }

lemma regRead_filter_schedule (spi : Spi) (reg v : Nat) :
    ((pmw3360_reg_read spi reg v).2.2).filter Act.isSchedule = [] := by
  simp only [pmw3360_reg_read]
  split_ifs <;> rfl

lemma regRead_filter_reportX (spi : Spi) (reg v : Nat) :
    ((pmw3360_reg_read spi reg v).2.2).filter Act.isReportX = [] := by
  simp only [pmw3360_reg_read]
  split_ifs <;> rfl

lemma regRead_filter_reportY (spi : Spi) (reg v : Nat) :
    ((pmw3360_reg_read spi reg v).2.2).filter Act.isReportY = [] := by
  simp only [pmw3360_reg_read]
  split_ifs <;> rfl

lemma regWrite_filter_schedule (spi : Spi) (reg v : Nat) :
    ((pmw3360_reg_write spi reg v).2).filter Act.isSchedule = [] := rfl

lemma setCpi_filter_schedule (spi : Spi) (cpi : Nat) :
    ((pmw3360_set_cpi spi cpi).2).filter Act.isSchedule = [] := by
  simp only [pmw3360_set_cpi]
  exact regWrite_filter_schedule spi _ _

lemma readMotion_filter_schedule (spi : Spi) :
    ((pmw3360_read_motion spi).2).filter Act.isSchedule = [] := by
  simp only [pmw3360_read_motion]
  split_ifs <;> simp [List.filter_append, regRead_filter_schedule]

lemma readMotion_filter_reportX (spi : Spi) :
    ((pmw3360_read_motion spi).2).filter Act.isReportX = [] := by
  simp only [pmw3360_read_motion]
  split_ifs <;> simp [List.filter_append, regRead_filter_reportX]

lemma readMotion_filter_reportY (spi : Spi) :
    ((pmw3360_read_motion spi).2).filter Act.isReportY = [] := by
  simp only [pmw3360_read_motion]
  split_ifs <;> simp [List.filter_append, regRead_filter_reportY]

lemma joystick_report_filter_schedule (dx dy : Int) :
    (joystick_report dx dy).filter Act.isSchedule = [] := by
  simp only [joystick_report]
  split_ifs <;> rfl

/-- Claim C5: for every threshold d (a uint16, hence d ≥ 0) and every
centered value v, apply_deadzone returns a result that is zero or has the
sign of v, and its absolute value is max(0, |v| - d); in particular values
just above the threshold map to just above zero, with no jump at the
boundary. -/
theorem C5_deadzone_sign_and_magnitude (v : Int) (d : Nat) :
    (apply_deadzone v d = 0 ∨ Int.sign (apply_deadzone v d) = Int.sign v) ∧
    |apply_deadzone v d| = max 0 (|v| - (d : Int)) := by
  constructor
  · rcases lt_trichotomy v 0 with hv | hv | hv
    · by_cases hd : -v ≤ (d : Int)
      · left
        simp only [apply_deadzone]
        rw [if_neg (by omega), if_pos hv, if_pos hd]
      · right
        have hr : apply_deadzone v d = v + d := by
          simp only [apply_deadzone]
          rw [if_neg (by omega), if_pos hv, if_neg hd]
        have h1 : Int.sign (v + d) = -1 := Int.sign_eq_neg_one_iff_neg.mpr (by omega)
        have h2 : Int.sign v = -1 := Int.sign_eq_neg_one_iff_neg.mpr hv
        rw [hr, h1, h2]
    · left
      simp [apply_deadzone, hv.symm]
    · by_cases hd : v ≤ (d : Int)
      · left
        simp only [apply_deadzone]
        rw [if_pos hv, if_pos hd]
      · right
        have hr : apply_deadzone v d = v - d := by
          simp only [apply_deadzone]
          rw [if_pos hv, if_neg hd]
        have h1 : Int.sign (v - d) = 1 := Int.sign_eq_one_iff_pos.mpr (by omega)
        have h2 : Int.sign v = 1 := Int.sign_eq_one_iff_pos.mpr hv
        rw [hr, h1, h2]
  · rw [Int.abs_eq_natAbs, Int.abs_eq_natAbs]
    simp only [apply_deadzone]
    split_ifs <;> omega

/-- Claim C8: pmw3360_set_cpi clamps the requested cpi (a uint16) to
[100, 12000] and writes the encoding (clamped / 100) - 1 to the CONFIG1
resolution register; a request of 50 encodes as 0 and a request of 20000
encodes as 119. -/
theorem C8_set_cpi_clamps_and_encodes (spi : Spi) (cpi : Nat) (h : cpi < 65536) :
    pmw3360_set_cpi spi cpi =
      pmw3360_reg_write spi PMW3360_CONFIG1 (min 12000 (max 100 cpi) / 100 - 1) ∧
    min 12000 (max 100 cpi) / 100 - 1 ≤ 119 ∧
    min 12000 (max 100 50) / 100 - 1 = 0 ∧
    min 12000 (max 100 20000) / 100 - 1 = 119 := by
  refine ⟨?_, by omega, by norm_num, by norm_num⟩
  simp only [pmw3360_set_cpi]
  have hv : ((if cpi < 100 then 100 else if cpi > 12000 then 12000 else cpi) / 100 - 1) % 256
      = min 12000 (max 100 cpi) / 100 - 1 := by
    split_ifs <;> omega
  rw [hv]

theorem C8_set_cpi_witness :
    pmw3360_set_cpi spiC8 20000 =
      pmw3360_reg_write spiC8 PMW3360_CONFIG1 119 := by
  have h := C8_set_cpi_clamps_and_encodes spiC8 20000 (by norm_num)
  have h1 := h.1
  rw [h.2.2.2] at h1
  exact h1

/-- Claim C10: whenever pmw3360_reg_read returns a nonzero error code, from
either the address write or the data read, the caller-supplied out byte is
left unchanged; it is assigned only on the success path. -/
theorem C10_reg_read_out_unchanged_on_error (spi : Spi) (reg v : Nat)
    (h : (pmw3360_reg_read spi reg v).1 ≠ 0) :
    (pmw3360_reg_read spi reg v).2.1 = v := by
  simp only [pmw3360_reg_read] at h ⊢
  split_ifs at h ⊢ with h1 h2
  · rfl
  · exact absurd rfl h
  · rfl

theorem C10_reg_read_out_unchanged_witness :
    (pmw3360_reg_read spiC10 2 9).1 ≠ 0 ∧ (pmw3360_reg_read spiC10 2 9).2.1 = 9 :=
  ⟨by decide, C10_reg_read_out_unchanged_on_error spiC10 2 9 (by decide)⟩

/-- Claim C2 is false on the write-failure path: with a transport whose
write fails with -5, pmw3360_reg_read releases the hold immediately and its
trace contains no busy-wait at all, contradicting the claim that both guard
waits still execute before the hold is released. -/
theorem C2_counterexample :
    (pmw3360_reg_read spiC2fail 2 0).1 = -5 ∧
    (pmw3360_reg_read spiC2fail 2 0).2.2 = [Act.spiWrite [2], Act.releaseHold] := by
  decide

/-- Claim C2 amended: when the address write succeeds (including when the
subsequent data read fails), pmw3360_reg_read performs exactly write of the
one-byte address frame with top bit cleared, busy-wait 160, one-byte read,
hold release, busy-wait 19; when the address write fails, the error is
returned and the hold is released immediately, with neither guard wait
executing. -/
theorem C2_amended_reg_read_protocol (spi : Spi) (reg v : Nat) :
    (spi.writeErr [reg &&& 0x7F] = 0 →
       (pmw3360_reg_read spi reg v).2.2 = regReadTrace (reg &&& 0x7F) ∧
       reg &&& 0x7F < 0x80) ∧
    (spi.writeErr [reg &&& 0x7F] ≠ 0 →
       (pmw3360_reg_read spi reg v).1 = spi.writeErr [reg &&& 0x7F] ∧
       (pmw3360_reg_read spi reg v).2.2 =
         [Act.spiWrite [reg &&& 0x7F], Act.releaseHold]) := by
  constructor
  · intro h
    refine ⟨?_, lt_of_le_of_lt Nat.and_le_right (by norm_num)⟩
    simp only [pmw3360_reg_read]
    rw [if_neg (by simp [h])]
    split_ifs <;> rfl
  · intro h
    simp only [pmw3360_reg_read]
    rw [if_pos h]
    exact ⟨rfl, rfl⟩

theorem C2_amended_witness :
    (pmw3360_reg_read spiC2ok 2 0).2.2 = regReadTrace (2 &&& 0x7F) ∧
    2 &&& 0x7F < 0x80 :=
  (C2_amended_reg_read_protocol spiC2ok 2 0).1 (by decide)

/-- Claim C3 is false for the pmw3360 driver: with a configured polling
interval of 0, its tick reschedules after 0 time-units and not after the
claimed default of 10; the driver performs no zero/default substitution. -/
theorem C3_counterexample :
    Act.schedule 0 ∈ pmw3360_work_handler spiC3 0 ∧
    Act.schedule 10 ∉ pmw3360_work_handler spiC3 0 := by decide

/-- Claim C3 amended: every tick of either driver performs exactly one
reschedule, on every outcome including transport failure; the joystick
driver reschedules after poll_interval_or_default (which substitutes 10 for
a zero interval), while the pmw3360 driver reschedules after the raw
configured interval with no substitution. -/
theorem C3_amended_reschedule_every_tick :
    (∀ (spi : Spi) (ms : Nat),
       schedules (pmw3360_work_handler spi ms) = [Act.schedule ms]) ∧
    (∀ (cfg : JoyCfg) (data : JoyData) (xr yr : Int × Int),
       schedules (joystick_work_cb cfg data xr yr) =
         [Act.schedule (poll_interval_or_default cfg.poll_interval_ms)]) ∧
    poll_interval_or_default 0 = 10 := by
  refine ⟨?_, ?_, rfl⟩
  · intro spi ms
    simp only [pmw3360_work_handler, schedules, List.filter_append]
    rw [readMotion_filter_schedule]
    cases hm : (pmw3360_read_motion spi).1 with
    | none => rfl
    | some d =>
        dsimp only
        by_cases hd : d.1 ≠ 0 ∨ d.2 ≠ 0
        · rw [if_pos hd]; rfl
        · rw [if_neg hd]; rfl
  · intro cfg data xr yr
    simp only [joystick_work_cb]
    split_ifs <;>
      simp [schedules, List.filter_append, joystick_report_filter_schedule,
            Act.isSchedule, List.filter]

/-- Claim C1 is false for the pmw3360 driver: on a tick whose sample
succeeds with dx = 0 and dy = 1, the handler still emits a relative-X event,
and that event carries value 0 for an axis whose delta is zero. -/
theorem C1_counterexample :
    (pmw3360_read_motion spiC1).1 = some (0, 1) ∧
    Act.reportX 0 false ∈ pmw3360_work_handler spiC1 4 := by decide

/-- Claim C1 amended: the joystick emission layer emits a relative-X event
iff dx is nonzero and a relative-Y event iff dy is nonzero, the X event
carrying sync exactly when no Y event follows and the Y event always closing
the batch; the pmw3360 handler instead emits either nothing (when both
deltas are zero) or always both events, X with the more-follows flag and Y
closing the batch, so it can emit a zero-valued event for a zero axis when
the other axis is nonzero. -/
theorem C1_amended_emission_policy :
    (∀ dx dy : Int,
       reportsX (joystick_report dx dy) =
         (if dx ≠ 0 then [Act.reportX (clamp16 dx) (dy == 0)] else []) ∧
       reportsY (joystick_report dx dy) =
         (if dy ≠ 0 then [Act.reportY (clamp16 dy) true] else [])) ∧
    (∀ (spi : Spi) (ms : Nat) (dx dy : Int),
       (pmw3360_read_motion spi).1 = some (dx, dy) →
       reportsX (pmw3360_work_handler spi ms) =
         (if dx ≠ 0 ∨ dy ≠ 0 then [Act.reportX dx false] else []) ∧
       reportsY (pmw3360_work_handler spi ms) =
         (if dx ≠ 0 ∨ dy ≠ 0 then [Act.reportY dy true] else [])) := by
  constructor
  · intro dx dy
    constructor
    · by_cases hx : dx = 0 <;> by_cases hy : dy = 0 <;>
        simp [joystick_report, reportsX, hx, hy, Act.isReportX, Act.isReportY,
              List.filter_append, List.filter, bne, beq_iff_eq]
    · by_cases hx : dx = 0 <;> by_cases hy : dy = 0 <;>
        simp [joystick_report, reportsY, hx, hy, Act.isReportX, Act.isReportY,
              List.filter_append, List.filter, bne, beq_iff_eq]
  · intro spi ms dx dy h
    constructor
    · simp only [pmw3360_work_handler, reportsX, List.filter_append, h]
      rw [readMotion_filter_reportX]
      by_cases hd : dx ≠ 0 ∨ dy ≠ 0
      · rw [if_pos hd, if_pos hd]; rfl
      · rw [if_neg hd, if_neg hd]; rfl
    · simp only [pmw3360_work_handler, reportsY, List.filter_append, h]
      rw [readMotion_filter_reportY]
      by_cases hd : dx ≠ 0 ∨ dy ≠ 0
      · rw [if_pos hd, if_pos hd]; rfl
      · rw [if_neg hd, if_neg hd]; rfl

theorem C1_amended_witness :
    reportsX (pmw3360_work_handler spiC1w 4) = [Act.reportX 16 false] ∧
    reportsY (pmw3360_work_handler spiC1w 4) = [Act.reportY (-16) true] := by
  have h := C1_amended_emission_policy.2 spiC1w 4 16 (-16) (by decide)
  exact ⟨h.1.trans (by decide), h.2.trans (by decide)⟩

lemma regRead_trace_of_ok (spi : Spi) (reg v : Nat)
    (h : (pmw3360_reg_read spi reg v).1 = 0) :
    (pmw3360_reg_read spi reg v).2.2 = regReadTrace (reg &&& 0x7F) := by
  simp only [pmw3360_reg_read] at h ⊢
  split_ifs at h ⊢ with h1 h2
  · exact absurd h h1
  · rfl
  · rfl

/-- Claim C4: pmw3360_read_motion reads the MOTION status register first and
returns no motion without any further register read when bit 0x80 is clear;
with the bit set it reads DELTA_X_L, DELTA_X_H, DELTA_Y_L, DELTA_Y_H in that
fixed order, returns no motion if any of those reads fails, and otherwise
combines the bytes high-byte-most-significant into signed 16-bit deltas;
status 0x80 with X bytes 0x10, 0x00 and Y bytes 0xF0, 0xFF yields dx = 16
and dy = -16. -/
theorem C4_read_motion_structure (spi : Spi) :
    (((pmw3360_reg_read spi PMW3360_MOTION 0).1 = 0 ∧
      (pmw3360_reg_read spi PMW3360_MOTION 0).2.1 &&& 0x80 = 0) →
       pmw3360_read_motion spi = (none, regReadTrace PMW3360_MOTION)) ∧
    (((pmw3360_reg_read spi PMW3360_MOTION 0).1 = 0 ∧
      (pmw3360_reg_read spi PMW3360_MOTION 0).2.1 &&& 0x80 ≠ 0 ∧
      (pmw3360_reg_read spi PMW3360_DELTA_X_L 0).1 = 0 ∧
      (pmw3360_reg_read spi PMW3360_DELTA_X_H 0).1 = 0 ∧
      (pmw3360_reg_read spi PMW3360_DELTA_Y_L 0).1 = 0 ∧
      (pmw3360_reg_read spi PMW3360_DELTA_Y_H 0).1 = 0) →
       pmw3360_read_motion spi =
         (some (toInt16 (((pmw3360_reg_read spi PMW3360_DELTA_X_H 0).2.1 <<< 8) |||
                         (pmw3360_reg_read spi PMW3360_DELTA_X_L 0).2.1),
                toInt16 (((pmw3360_reg_read spi PMW3360_DELTA_Y_H 0).2.1 <<< 8) |||
                         (pmw3360_reg_read spi PMW3360_DELTA_Y_L 0).2.1)),
          regReadTrace PMW3360_MOTION ++ regReadTrace PMW3360_DELTA_X_L ++
          regReadTrace PMW3360_DELTA_X_H ++ regReadTrace PMW3360_DELTA_Y_L ++
          regReadTrace PMW3360_DELTA_Y_H)) ∧
    (((pmw3360_reg_read spi PMW3360_MOTION 0).1 = 0 ∧
      (pmw3360_reg_read spi PMW3360_MOTION 0).2.1 &&& 0x80 ≠ 0 ∧
      ((pmw3360_reg_read spi PMW3360_DELTA_X_L 0).1 ≠ 0 ∨
       (pmw3360_reg_read spi PMW3360_DELTA_X_H 0).1 ≠ 0 ∨
       (pmw3360_reg_read spi PMW3360_DELTA_Y_L 0).1 ≠ 0 ∨
       (pmw3360_reg_read spi PMW3360_DELTA_Y_H 0).1 ≠ 0)) →
       (pmw3360_read_motion spi).1 = none) ∧
    (pmw3360_read_motion spiC4).1 = some (16, -16) := by
  refine ⟨?_, ?_, ?_, by decide⟩
  · rintro ⟨h0, hbit⟩
    simp only [pmw3360_read_motion]
    rw [if_neg (by simp [h0]), if_pos hbit, regRead_trace_of_ok spi PMW3360_MOTION 0 h0]
    norm_num [PMW3360_MOTION]
    decide
  · rintro ⟨h0, hbit, h1, h2, h3, h4⟩
    simp only [pmw3360_read_motion]
    rw [if_neg (by simp [h0]), if_neg hbit, if_neg (by simp [h1]),
        if_neg (by simp [h2]), if_neg (by simp [h3]), if_neg (by simp [h4]),
        regRead_trace_of_ok spi PMW3360_MOTION 0 h0,
        regRead_trace_of_ok spi PMW3360_DELTA_X_L 0 h1,
        regRead_trace_of_ok spi PMW3360_DELTA_X_H 0 h2,
        regRead_trace_of_ok spi PMW3360_DELTA_Y_L 0 h3,
        regRead_trace_of_ok spi PMW3360_DELTA_Y_H 0 h4]
    norm_num [PMW3360_MOTION, PMW3360_DELTA_X_L, PMW3360_DELTA_X_H,
              PMW3360_DELTA_Y_L, PMW3360_DELTA_Y_H]
    decide
  · rintro ⟨h0, hbit, hf⟩
    simp only [pmw3360_read_motion]
    rw [if_neg (by simp [h0]), if_neg hbit]
    by_cases e1 : (pmw3360_reg_read spi PMW3360_DELTA_X_L 0).1 ≠ 0
    · rw [if_pos e1]
    · rw [if_neg e1]
      by_cases e2 : (pmw3360_reg_read spi PMW3360_DELTA_X_H 0).1 ≠ 0
      · rw [if_pos e2]
      · rw [if_neg e2]
        by_cases e3 : (pmw3360_reg_read spi PMW3360_DELTA_Y_L 0).1 ≠ 0
        · rw [if_pos e3]
        · rw [if_neg e3]
          by_cases e4 : (pmw3360_reg_read spi PMW3360_DELTA_Y_H 0).1 ≠ 0
          · rw [if_pos e4]
          · rcases hf with h | h | h | h
            · exact absurd h e1
            · exact absurd h e2
            · exact absurd h e3
            · exact absurd h e4

theorem C4_read_motion_witness :
    pmw3360_read_motion spiC4 =
      (some (16, -16),
       regReadTrace PMW3360_MOTION ++ regReadTrace PMW3360_DELTA_X_L ++
       regReadTrace PMW3360_DELTA_X_H ++ regReadTrace PMW3360_DELTA_Y_L ++
       regReadTrace PMW3360_DELTA_Y_H) := by
  have h := (C4_read_motion_structure spiC4).2.1 (by decide)
  exact h.trans (by decide)

/-- Claim C6: on a successful joystick tick each axis is conditioned in the
order center-subtraction, deadzone, division by the effective scale divisor,
optional negation, and int16 clamping at emission (the clamp is performed
inside joystick_report); with center (500, 500), deadzone 50, scale divisor
10 and no inversion, raw reading (600, 500) emits exactly one event, a
relative-X event with value 5, and no Y event. -/
theorem C6_joystick_pipeline (cfg : JoyCfg) (data : JoyData) (xr yr : Int × Int)
    (hx : 0 ≤ xr.1) (hy : 0 ≤ yr.1) :
    joystick_work_cb cfg data xr yr =
      [Act.adcReadX, Act.adcReadY] ++
      joystick_report
        (if cfg.invert_x then
           -scale_value (apply_deadzone (xr.2 - data.center_x) cfg.deadzone)
              cfg.scale_divisor
         else
           scale_value (apply_deadzone (xr.2 - data.center_x) cfg.deadzone)
              cfg.scale_divisor)
        (if cfg.invert_y then
           -scale_value (apply_deadzone (yr.2 - data.center_y) cfg.deadzone)
              cfg.scale_divisor
         else
           scale_value (apply_deadzone (yr.2 - data.center_y) cfg.deadzone)
              cfg.scale_divisor) ++
      [Act.schedule (poll_interval_or_default cfg.poll_interval_ms)] ∧
    joystick_work_cb cfgC6 dataC6 (0, 600) (0, 500) =
      [Act.adcReadX, Act.adcReadY, Act.reportX 5 true, Act.schedule 10] := by
  constructor
  · have hx2 : ¬xr.1 < 0 := not_lt.2 hx
    have hy2 : ¬yr.1 < 0 := not_lt.2 hy
    simp [joystick_work_cb, joystick_read_axis, hx2, hy2]
  · decide

theorem C6_joystick_pipeline_witness :
    joystick_work_cb cfgC6 dataC6 (0, 600) (0, 500) =
      [Act.adcReadX, Act.adcReadY] ++ joystick_report 5 0 ++ [Act.schedule 10] := by
  have h :=
    (C6_joystick_pipeline cfgC6 dataC6 (0, 600) (0, 500) (by norm_num) (by norm_num)).1
  exact h.trans (by decide)

lemma init_ok_iff (spi : Spi) (ready : Bool) (ms cpi : Nat) :
    (pmw3360_init spi ready ms cpi).1 = 0 ↔
      (ready = true ∧
       (pmw3360_reg_write spi PMW3360_POWER_UP_RESET 0x5A).1 = 0 ∧
       (pmw3360_reg_read spi PMW3360_PRODUCT_ID 0).1 = 0 ∧
       (pmw3360_reg_read spi PMW3360_REVISION_ID 0).1 = 0 ∧
       (pmw3360_reg_read spi PMW3360_PRODUCT_ID 0).2.1 = 0x42 ∧
       (pmw3360_reg_read spi PMW3360_REVISION_ID 0).2.1 = 0x01) := by
  simp only [pmw3360_init]
  split_ifs with hready hw h1 h2 hid
  · simp [hready]
  · simp [hw]
  · simp [h1]
  · simp [h2]
  · rcases hid with h | h <;> simp [h]
  · have hready2 : ready = true := by cases ready <;> simp_all
    have hw2 := not_ne_iff.mp hw
    have h12 := not_ne_iff.mp h1
    have h22 := not_ne_iff.mp h2
    push_neg at hid
    simp [hready2, hw2, h12, h22, hid.1, hid.2]

lemma init_schedules (spi : Spi) (ready : Bool) (ms cpi : Nat) :
    schedules (pmw3360_init spi ready ms cpi).2 =
      if (pmw3360_init spi ready ms cpi).1 = 0 then [Act.schedule ms] else [] := by
  simp only [pmw3360_init]
  split_ifs <;>
    first
      | (exfalso; simp_all; done)
      | simp [schedules, List.filter_append, regWrite_filter_schedule,
              regRead_filter_schedule, setCpi_filter_schedule, Act.isSchedule,
              List.filter]

/-- Claim C9: bring-up succeeds exactly when the bus is ready, the reset
write succeeds, both identity reads succeed and return (0x42, 0x01); on any
failure no polling tick is scheduled, on success exactly one tick is
scheduled; the success condition is independent of the best-effort CONFIG2
and resolution writes, so a failed resolution write does not fail
bring-up. -/
theorem C9_bringup_identity_gate (spi : Spi) (ready : Bool) (ms cpi : Nat) :
    ((pmw3360_init spi ready ms cpi).1 = 0 ↔
      (ready = true ∧
       (pmw3360_reg_write spi PMW3360_POWER_UP_RESET 0x5A).1 = 0 ∧
       (pmw3360_reg_read spi PMW3360_PRODUCT_ID 0).1 = 0 ∧
       (pmw3360_reg_read spi PMW3360_REVISION_ID 0).1 = 0 ∧
       (pmw3360_reg_read spi PMW3360_PRODUCT_ID 0).2.1 = 0x42 ∧
       (pmw3360_reg_read spi PMW3360_REVISION_ID 0).2.1 = 0x01)) ∧
    ((pmw3360_init spi ready ms cpi).1 ≠ 0 →
       schedules (pmw3360_init spi ready ms cpi).2 = []) ∧
    ((pmw3360_init spi ready ms cpi).1 = 0 →
       schedules (pmw3360_init spi ready ms cpi).2 = [Act.schedule ms]) := by
  refine ⟨init_ok_iff spi ready ms cpi, ?_, ?_⟩
  · intro h
    rw [init_schedules, if_neg h]
  · intro h
    rw [init_schedules, if_pos h]

theorem C9_bringup_witness :
    (pmw3360_init spiC9 true 4 500).1 = 0 ∧
    (pmw3360_set_cpi spiC9 500).1 ≠ 0 ∧
    schedules (pmw3360_init spiC9 true 4 500).2 = [Act.schedule 4] := by
  have h := C9_bringup_identity_gate spiC9 true 4 500
  have h0 : (pmw3360_init spiC9 true 4 500).1 = 0 := h.1.mpr (by decide)
  exact ⟨h0, by decide, h.2.2 h0⟩

lemma calibrate_go_success (o : AdcOracle) :
    ∀ (n i : Nat) (sx sy : Int),
      (∀ j, j < n → 0 ≤ (o.x (i + j)).1) →
      (∀ j, j < n → 0 ≤ (o.y (i + j)).1) →
      calibrate_go o i n sx sy =
        (0,
         some (Int.tdiv (sx + ∑ j ∈ Finset.range n, (o.x (i + j)).2) 8,
               Int.tdiv (sy + ∑ j ∈ Finset.range n, (o.y (i + j)).2) 8),
         (List.replicate n [Act.adcReadX, Act.adcReadY, Act.msleep 2]).flatten) := by
  intro n
  induction n with
  | zero =>
    intro i sx sy hx hy
    simp [calibrate_go]
  | succ n ih =>
    intro i sx sy hx hy
    have hx0 : 0 ≤ (o.x i).1 := by
      have := hx 0 (by omega)
      simpa using this
    have hy0 : 0 ≤ (o.y i).1 := by
      have := hy 0 (by omega)
      simpa using this
    have hrx : joystick_read_axis (o.x i) 0 = (0, (o.x i).2) := by
      simp [joystick_read_axis, not_lt.2 hx0]
    have hry : joystick_read_axis (o.y i) 0 = (0, (o.y i).2) := by
      simp [joystick_read_axis, not_lt.2 hy0]
    have ihh := ih (i + 1) (sx + (o.x i).2) (sy + (o.y i).2)
      (fun j hj => by
        rw [show i + 1 + j = i + (j + 1) from by omega]
        exact hx (j + 1) (by omega))
      (fun j hj => by
        rw [show i + 1 + j = i + (j + 1) from by omega]
        exact hy (j + 1) (by omega))
    have hsx : sx + (o.x i).2 + ∑ j ∈ Finset.range n, (o.x (i + 1 + j)).2
        = sx + ∑ j ∈ Finset.range (n + 1), (o.x (i + j)).2 := by
      rw [Finset.sum_range_succ',
          Finset.sum_congr rfl (fun j _ => by
            rw [show i + 1 + j = i + (j + 1) from by omega])]
      simp
      ring
    have hsy : sy + (o.y i).2 + ∑ j ∈ Finset.range n, (o.y (i + 1 + j)).2
        = sy + ∑ j ∈ Finset.range (n + 1), (o.y (i + j)).2 := by
      rw [Finset.sum_range_succ',
          Finset.sum_congr rfl (fun j _ => by
            rw [show i + 1 + j = i + (j + 1) from by omega])]
      simp
      ring
    simp only [calibrate_go, hrx, hry]
    rw [if_neg (by norm_num), if_neg (by norm_num), ihh]
    simp only [List.replicate_succ, List.flatten_cons]
    rw [hsx, hsy]

lemma calibrate_go_fail_x (o : AdcOracle) :
    ∀ (k n i : Nat) (sx sy : Int), k < n →
      (∀ j, j < k → 0 ≤ (o.x (i + j)).1 ∧ 0 ≤ (o.y (i + j)).1) →
      (o.x (i + k)).1 < 0 →
      (calibrate_go o i n sx sy).1 = (o.x (i + k)).1 ∧
      (calibrate_go o i n sx sy).2.1 = none := by
  intro k
  induction k with
  | zero =>
    intro n i sx sy hkn hpre hf
    cases n with
    | zero => omega
    | succ n =>
      simp only [Nat.add_zero] at hf
      have hrx : joystick_read_axis (o.x i) 0 = ((o.x i).1, 0) := by
        simp [joystick_read_axis, hf]
      simp [calibrate_go, hrx, hf]
  | succ k ih =>
    intro n i sx sy hkn hpre hf
    cases n with
    | zero => omega
    | succ n =>
      have hx0 : 0 ≤ (o.x i).1 := by
        have := (hpre 0 (by omega)).1
        simpa using this
      have hy0 : 0 ≤ (o.y i).1 := by
        have := (hpre 0 (by omega)).2
        simpa using this
      have hrx : joystick_read_axis (o.x i) 0 = (0, (o.x i).2) := by
        simp [joystick_read_axis, not_lt.2 hx0]
      have hry : joystick_read_axis (o.y i) 0 = (0, (o.y i).2) := by
        simp [joystick_read_axis, not_lt.2 hy0]
      have ihh := ih n (i + 1) (sx + (o.x i).2) (sy + (o.y i).2) (by omega)
        (fun j hj => by
          rw [show i + 1 + j = i + (j + 1) from by omega]
          exact hpre (j + 1) (by omega))
        (by
          rw [show i + 1 + k = i + (k + 1) from by omega]
          exact hf)
      simp only [calibrate_go, hrx, hry]
      rw [if_neg (by norm_num), if_neg (by norm_num)]
      rw [show i + (k + 1) = i + 1 + k from by omega]
      exact ⟨ihh.1, ihh.2⟩

lemma calibrate_go_fail_y (o : AdcOracle) :
    ∀ (k n i : Nat) (sx sy : Int), k < n →
      (∀ j, j < k → 0 ≤ (o.x (i + j)).1 ∧ 0 ≤ (o.y (i + j)).1) →
      0 ≤ (o.x (i + k)).1 →
      (o.y (i + k)).1 < 0 →
      (calibrate_go o i n sx sy).1 = (o.y (i + k)).1 ∧
      (calibrate_go o i n sx sy).2.1 = none := by
  intro k
  induction k with
  | zero =>
    intro n i sx sy hkn hpre hxk hf
    cases n with
    | zero => omega
    | succ n =>
      simp only [Nat.add_zero] at hxk hf
      have hrx : joystick_read_axis (o.x i) 0 = (0, (o.x i).2) := by
        simp [joystick_read_axis, not_lt.2 hxk]
      have hry : joystick_read_axis (o.y i) 0 = ((o.y i).1, 0) := by
        simp [joystick_read_axis, hf]
      simp [calibrate_go, hrx, hry, hf]
  | succ k ih =>
    intro n i sx sy hkn hpre hxk hf
    cases n with
    | zero => omega
    | succ n =>
      have hx0 : 0 ≤ (o.x i).1 := by
        have := (hpre 0 (by omega)).1
        simpa using this
      have hy0 : 0 ≤ (o.y i).1 := by
        have := (hpre 0 (by omega)).2
        simpa using this
      have hrx : joystick_read_axis (o.x i) 0 = (0, (o.x i).2) := by
        simp [joystick_read_axis, not_lt.2 hx0]
      have hry : joystick_read_axis (o.y i) 0 = (0, (o.y i).2) := by
        simp [joystick_read_axis, not_lt.2 hy0]
      have ihh := ih n (i + 1) (sx + (o.x i).2) (sy + (o.y i).2) (by omega)
        (fun j hj => by
          rw [show i + 1 + j = i + (j + 1) from by omega]
          exact hpre (j + 1) (by omega))
        (by
          rw [show i + 1 + k = i + (k + 1) from by omega]
          exact hxk)
        (by
          rw [show i + 1 + k = i + (k + 1) from by omega]
          exact hf)
      simp only [calibrate_go, hrx, hry]
      rw [if_neg (by norm_num), if_neg (by norm_num)]
      rw [show i + (k + 1) = i + 1 + k from by omega]
      exact ⟨ihh.1, ihh.2⟩

lemma calibrate_go_none_of_err (o : AdcOracle) :
    ∀ (n i : Nat) (sx sy : Int), (calibrate_go o i n sx sy).1 ≠ 0 →
      (calibrate_go o i n sx sy).2.1 = none := by
  intro n
  induction n with
  | zero =>
    intro i sx sy h
    exact absurd rfl h
  | succ n ih =>
    intro i sx sy h
    simp only [calibrate_go] at h ⊢
    split_ifs at h ⊢ with h1 h2
    · rfl
    · rfl
    · exact ih (i + 1) _ _ h

/-- Claim C7: joystick_calibrate takes exactly 8 paired samples; when all
16 reads succeed it stores, per axis, the sum of the 8 samples divided by 8
with truncation toward zero (X reads 10, 12, 8, 14, 9, 11, 13, 7 give
center 10); when a read fails it returns that first error (the first failing
X read, or the first failing Y read when the X read of the same pair
succeeded) and leaves the stored centers unchanged. -/
theorem C7_calibrate_mean_and_abort (o : AdcOracle) (data : JoyData) :
    ((∀ i, i < 8 → 0 ≤ (o.x i).1) → (∀ i, i < 8 → 0 ≤ (o.y i).1) →
       (joystick_calibrate o data).1 = 0 ∧
       (joystick_calibrate o data).2.1 =
         { center_x := Int.tdiv (∑ i ∈ Finset.range 8, (o.x i).2) 8,
           center_y := Int.tdiv (∑ i ∈ Finset.range 8, (o.y i).2) 8 } ∧
       (joystick_calibrate o data).2.2.count Act.adcReadX = 8 ∧
       (joystick_calibrate o data).2.2.count Act.adcReadY = 8) ∧
    ((joystick_calibrate o data).1 ≠ 0 → (joystick_calibrate o data).2.1 = data) ∧
    (∀ k, k < 8 → (∀ j, j < k → 0 ≤ (o.x j).1 ∧ 0 ≤ (o.y j).1) →
       (o.x k).1 < 0 → (joystick_calibrate o data).1 = (o.x k).1) ∧
    (∀ k, k < 8 → (∀ j, j < k → 0 ≤ (o.x j).1 ∧ 0 ≤ (o.y j).1) →
       0 ≤ (o.x k).1 → (o.y k).1 < 0 →
       (joystick_calibrate o data).1 = (o.y k).1) ∧
    (joystick_calibrate oC7 dataC7).2.1 = { center_x := 10, center_y := 0 } := by
  refine ⟨?_, ?_, ?_, ?_, by decide⟩
  · intro hx hy
    have hs := calibrate_go_success o 8 0 0 0
      (fun j hj => by rw [Nat.zero_add]; exact hx j hj)
      (fun j hj => by rw [Nat.zero_add]; exact hy j hj)
    simp only [Nat.zero_add, zero_add] at hs
    simp [joystick_calibrate, hs]
  · intro h
    cases hr : (calibrate_go o 0 8 0 0).2.1 with
    | some c =>
      exfalso
      apply h
      simp [joystick_calibrate, hr]
    | none =>
      simp [joystick_calibrate, hr]
  · intro k hk hpre hf
    have hfx := calibrate_go_fail_x o k 8 0 0 0 hk
      (fun j hj => by rw [Nat.zero_add]; exact hpre j hj)
      (by rw [Nat.zero_add]; exact hf)
    rw [Nat.zero_add] at hfx
    simp [joystick_calibrate, hfx.1, hfx.2]
  · intro k hk hpre hxk hf
    have hfy := calibrate_go_fail_y o k 8 0 0 0 hk
      (fun j hj => by rw [Nat.zero_add]; exact hpre j hj)
      (by rw [Nat.zero_add]; exact hxk)
      (by rw [Nat.zero_add]; exact hf)
    rw [Nat.zero_add] at hfy
    simp [joystick_calibrate, hfy.1, hfy.2]

theorem C7_calibrate_witness :
    (joystick_calibrate oC7 dataC7).1 = 0 ∧
    (joystick_calibrate oC7 dataC7).2.1 = { center_x := 10, center_y := 0 } ∧
    (joystick_calibrate oC7 dataC7).2.2.count Act.adcReadX = 8 ∧
    (joystick_calibrate oC7 dataC7).2.2.count Act.adcReadY = 8 := by
  have h := (C7_calibrate_mean_and_abort oC7 dataC7).1 (by decide) (by decide)
  exact ⟨h.1, h.2.1.trans (by decide), h.2.2.1, h.2.2.2⟩
